import Mathlib

/-!
Shallow embedding of `src/ParticleHeatMap.ts` (a particle-based heat map
overlay for a 3D globe) and proofs about it.

Modelling conventions:
* JS `number`s that carry coordinates, options and grid values become `ℚ`;
  a grid cell holding `NaN` is `Option ℚ` with `none` for `NaN`.
* JS `~~x` (ToInt32 of a finite value) becomes truncation toward zero
  followed by wrapping into `[-2^31, 2^31)`.
* Host-engine (Cesium) collaborators that are genuinely external — the
  ellipsoid projection `cartesianToCartographic`, `Cartesian3.normalize`
  (square roots), `Color.fromCssColorString` (CSS parsing) and the
  geodesic `Cartesian3.distance ∘ fromRadians` — are a `Host` record of
  injected functions, as §9 of the design notes recommends.  Trivially
  component-wise Cesium helpers (`Cartesian3.add`, `multiplyByScalar`,
  `Color.withAlpha`, the `Rectangle.width`/`height` getters) are embedded
  concretely with their documented semantics.
* The mutable class instance plus the scene's primitive collection become
  one state record `ParticleHeatMap`; created particle systems get fresh
  ids from a model-level counter so that "the scene still holds the
  emitter" is expressible.
* A thrown JS error surfaces as `Except.error` / `Option.none`.
-/

namespace PHM

/-- `Math.PI`, i.e. the IEEE-754 double nearest π, as an exact rational.
`CMath.TWO_PI` and `Math.PI * 2` are both `piQ * 2` (exact in doubles). -/
def piQ : ℚ := 884279719003555 / 281474976710656

/-- Truncation toward zero of a rational, the rounding `~~` performs on a
finite double before the 32-bit wrap. -/
def truncQ (q : ℚ) : ℤ := if q < 0 then -⌊-q⌋ else ⌊q⌋

/-- JS `~~x` on a finite value: truncate toward zero, then ToInt32's wrap
into `[-2^31, 2^31)`. -/
def toInt32 (q : ℚ) : ℤ := (truncQ q + 2 ^ 31) % 2 ^ 32 - 2 ^ 31

/-- JS array indexing `l[i]`: `undefined` (`none`) when the index is
negative or past the end. -/
def jsIndex {α : Type} (l : List α) (i : ℤ) : Option α :=
  if i < 0 then none else l[i.toNat]?

/-- Cesium `Cartesian3` (components as exact rationals). -/
structure Cartesian3 where
  x : ℚ
  y : ℚ
  z : ℚ
deriving DecidableEq

/-- Cesium `Cartesian3.add` (component-wise, documented host semantics). -/
def Cartesian3.add (a b : Cartesian3) : Cartesian3 :=
  ⟨a.x + b.x, a.y + b.y, a.z + b.z⟩

/-- Cesium `Cartesian3.multiplyByScalar` (component-wise). -/
def Cartesian3.multiplyByScalar (a : Cartesian3) (k : ℚ) : Cartesian3 :=
  ⟨a.x * k, a.y * k, a.z * k⟩

/-- Cesium `Cartographic` as far as the code reads it. -/
structure Cartographic where
  longitude : ℚ
  latitude : ℚ
deriving DecidableEq

/-- Cesium `Color` (red/green/blue/alpha). -/
structure Color where
  red : ℚ
  green : ℚ
  blue : ℚ
  alpha : ℚ
deriving DecidableEq

/-- Cesium `Color.withAlpha`: same color with the alpha replaced. -/
def Color.withAlpha (c : Color) (a : ℚ) : Color := { c with alpha := a }

/-- Cesium `Rectangle`: west/south/east/north in radians. -/
structure Rectangle where
  west : ℚ
  south : ℚ
  east : ℚ
  north : ℚ
deriving DecidableEq

/-- Cesium `Rectangle#width` getter: `east - west`, plus a full turn when
the rectangle crosses the antimeridian (`east < west`). -/
def Rectangle.width (r : Rectangle) : ℚ :=
  if r.east < r.west then r.east - r.west + piQ * 2 else r.east - r.west

/-- Cesium `Rectangle#height` getter: `north - south`. -/
def Rectangle.height (r : Rectangle) : ℚ := r.north - r.south

/-- The mutable slice of a Cesium `ParticleSystem` this code constructs and
writes.  `modelMatrix` keeps the arguments of
`Transforms.eastNorthUpToFixedFrame (Cartesian3.fromRadians lon lat h)`
symbolically, since only which arguments were passed is observable here.
`id` is a model-level identity standing for JS object identity, so that
membership in the scene's primitive collection is expressible. -/
structure EnuFrameArgs where
  lon : ℚ
  lat : ℚ
  h : ℚ
deriving DecidableEq

structure ParticleSystem where
  id : ℕ
  image : String
  minimumSpeed : ℚ
  maximumSpeed : ℚ
  startScale : ℚ
  endScale : ℚ
  emissionRate : ℚ
  emitter : Cartesian3
  imageSize : ℚ × ℚ
  modelMatrix : EnuFrameArgs
  minimumParticleLife : ℚ
  lifetime : ℚ
  startColor : Color
  minimumImageSize : ℚ × ℚ
  maximumImageSize : ℚ × ℚ
  «show» : Bool
deriving DecidableEq

/-- A live particle, as far as the update callback reads and writes it. -/
structure Particle where
  position : Cartesian3
  velocity : Cartesian3
  startColor : Color
  endColor : Color
  image : Option String
deriving DecidableEq

/-- The injected host-engine (Cesium) collaborators: ellipsoid projection,
vector normalization, CSS color parsing, and
`Cartesian3.distance (fromRadians a) (fromRadians b)` as one function of
the two radian pairs. -/
structure Host where
  cartesianToCartographic : Cartesian3 → Cartographic
  normalize : Cartesian3 → Cartesian3
  fromCssColorString : String → Color
  distance : (ℚ × ℚ) → (ℚ × ℚ) → ℚ

/-- `ParticleHeatMapRenderOptions`: every field optional. -/
structure ParticleHeatMapRenderOptions where
  emissionRate : Option ℚ
  startColor : Option String
  upColor : Option String
  downColor : Option String
  lifetime : Option ℚ
  scale : Option ℚ
  maximumSpeed : Option ℚ
  endScale : Option ℚ
  height : Option ℚ
deriving DecidableEq

/-- `Required<ParticleHeatMapRenderOptions>`: the stored options. -/
structure RequiredRenderOptions where
  emissionRate : ℚ
  startColor : String
  upColor : String
  downColor : String
  lifetime : ℚ
  scale : ℚ
  maximumSpeed : ℚ
  endScale : ℚ
  height : ℚ
deriving DecidableEq

/-- `defaultOptions` from the source. -/
def defaultOptions : RequiredRenderOptions :=
  { emissionRate := 1000
  , scale := 10
  , maximumSpeed := 1
  , height := 1000
  , endScale := 1
  , startColor := "rgba(0, 247, 255, 1)"
  , upColor := "rgba(255, 255, 0, 1)"
  , downColor := "rgba(0, 0, 255, 1)"
  , lifetime := 12 }

/-- The object spread `{ ...base, ...o }`: fields present in `o` win. -/
def mergeOptions (base : RequiredRenderOptions)
    (o : ParticleHeatMapRenderOptions) : RequiredRenderOptions :=
  { emissionRate := o.emissionRate.getD base.emissionRate
  , startColor := o.startColor.getD base.startColor
  , upColor := o.upColor.getD base.upColor
  , downColor := o.downColor.getD base.downColor
  , lifetime := o.lifetime.getD base.lifetime
  , scale := o.scale.getD base.scale
  , maximumSpeed := o.maximumSpeed.getD base.maximumSpeed
  , endScale := o.endScale.getD base.endScale
  , height := o.height.getD base.height }

/-- The `ParticleHeatMap` class instance together with the scene's
primitive collection (`primitives`, as ids of added systems) and the
model-level fresh-id counter `nextId`. -/
structure ParticleHeatMap where
  renderOptions : RequiredRenderOptions
  rectangle : Rectangle
  data : List (List (Option ℚ))
  particleSystem : Option ParticleSystem
  primitives : List ℕ
  nextId : ℕ
deriving DecidableEq

/-- `ParticleHeatMapOptions` (the constructor's second argument). -/
structure ParticleHeatMapOptions where
  rectangle : Rectangle
  data : List (List (Option ℚ))
  renderOptions : ParticleHeatMapRenderOptions
deriving DecidableEq

/-- The class constructor: stores the rectangle and data and overlays the
given render options onto `defaultOptions`.  The scene starts with no
primitives added by this component. -/
def ParticleHeatMap.construct (o : ParticleHeatMapOptions) : ParticleHeatMap :=
  { renderOptions := mergeOptions defaultOptions o.renderOptions
  , rectangle := o.rectangle
  , data := o.data
  , particleSystem := none
  , primitives := []
  , nextId := 0 }

/-- The class constant `particleParticleSize = 12.0`. -/
def particleParticleSize : ℚ := 12

/-- The `center` getter: `west + width/2` re-normalized below `π` by a full
turn when it overflows, paired with `south + height/2`. -/
def ParticleHeatMap.center (m : ParticleHeatMap) : ℚ × ℚ :=
  let lon := m.rectangle.west + m.rectangle.width / 2
  let lon := if lon > piQ then lon - piQ * 2 else lon
  (lon, m.rectangle.south + m.rectangle.height / 2)

/-- The `ParticleSystem` constructed inside `init`. -/
def ParticleHeatMap.newSystem (H : Host) (m : ParticleHeatMap) : ParticleSystem :=
  { id := m.nextId
  , image := "/smoke.png"
  , minimumSpeed := 0
  , maximumSpeed := m.renderOptions.maximumSpeed
  , startScale := 1 / 2
  , endScale := m.renderOptions.endScale
  , emissionRate := m.renderOptions.emissionRate
  , emitter :=
      ⟨H.distance (m.rectangle.west, m.rectangle.north) (m.rectangle.east, m.rectangle.north)
      , H.distance (m.rectangle.west, m.rectangle.north) (m.rectangle.west, m.rectangle.south)
      , 1⟩
  , imageSize := (25, 25)
  , modelMatrix := ⟨m.center.1, m.center.2, m.renderOptions.height⟩
  , minimumParticleLife := 1
  , lifetime := m.renderOptions.lifetime
  , startColor := (H.fromCssColorString m.renderOptions.startColor).withAlpha 0
  , minimumImageSize := (particleParticleSize, particleParticleSize)
  , maximumImageSize := (particleParticleSize * 2, particleParticleSize * 2)
  , «show» := true }

/-- `init(resetCamera = false)`.  The source performs no initialization
check: it unconditionally constructs a new particle system, stores it in
`this.particleSystem` and adds it to `scene.primitives`.  The
`resetCamera` flag only fires a camera fly-to animation, which touches no
modelled state. -/
def ParticleHeatMap.init (H : Host) (resetCameraFlag : Bool)
    (m : ParticleHeatMap) : ParticleHeatMap :=
  let ps := m.newSystem H
  { m with
    particleSystem := some ps
  , primitives := m.primitives ++ [ps.id]
  , nextId := m.nextId + 1 }

/-- The `lonGap` computation of the update callback, including the
antimeridian correction `if (longitude < 0 && west > 0) lonGap += 2π`. -/
def lonGapOf (west longitude : ℚ) : ℚ :=
  let g := longitude - west
  if longitude < 0 ∧ 0 < west then g + piQ * 2 else g

/-- `posX = ~~(Math.abs(lonGap / lonWidth) * width)` with `width` the
grid's column count. -/
def posXOf (west lonWidth longitude : ℚ) (cols : ℕ) : ℤ :=
  toInt32 (|lonGapOf west longitude / lonWidth| * cols)

/-- `posY = ~~(Math.abs((north - latitude) / latWidth) * height)` with
`height` the grid's row count. -/
def posYOf (north latWidth latitude : ℚ) (rows : ℕ) : ℤ :=
  toInt32 (|(north - latitude) / latWidth| * rows)

/-- `this.data[posY]?.[posX]`: `none` when the row or the cell is
`undefined`; `some none` is a stored `NaN`; `some (some v)` a number. -/
def gridValue (data : List (List (Option ℚ))) (posY posX : ℤ) :
    Option (Option ℚ) :=
  match jsIndex data posY with
  | none => none
  | some row => jsIndex row posX

/-- The per-tick update callback `particleCallback`.  Result `none` models
the one way it can throw: reading `this.data[0].length` when `data` is
empty.  `isNaN(value)` in the source is true exactly on `undefined`
(out-of-bounds, here `none`) and on a stored `NaN` (here `some none`), so
the `some (some v)` branch is the non-NaN path.  The dead `?? 1` on
`renderOptions.scale` (the stored options are `Required`) is dropped. -/
def ParticleHeatMap.particleCallback (H : Host) (m : ParticleHeatMap)
    (p : Particle) : Option Particle :=
  if m.particleSystem = none then some p else
  if m.data = [] then none else
  let carto := H.cartesianToCartographic p.position
  let cols := (m.data.head?.getD []).length
  let rows := m.data.length
  let posX := posXOf m.rectangle.west m.rectangle.width carto.longitude cols
  let posY := posYOf m.rectangle.north m.rectangle.height carto.latitude rows
  match gridValue m.data posY posX with
  | some (some v) =>
    some { p with
      velocity :=
        p.velocity.add ((H.normalize p.position).multiplyByScalar
          (v * 10 * m.renderOptions.scale))
    , endColor :=
        if 0 < v then H.fromCssColorString m.renderOptions.upColor
        else H.fromCssColorString m.renderOptions.downColor }
  | _ =>
    some { p with
      startColor := { p.startColor with alpha := 0 }
    , endColor := { p.endColor with alpha := 0 }
    , image := none }

/-- `update(options)`.  Faithful to the source's order: the six locals are
destructured from `this.renderOptions` BEFORE the merge, so the values
pushed onto the live system are the pre-merge ones; the source's
`!== undefined` guards are vacuously true on a `Required<>` record and
are dropped. -/
def ParticleHeatMap.update (H : Host) (options : ParticleHeatMapRenderOptions)
    (m : ParticleHeatMap) : ParticleHeatMap :=
  match m.particleSystem with
  | none => m
  | some ps =>
    let old := m.renderOptions
    let merged := mergeOptions m.renderOptions options
    { m with
      renderOptions := merged
    , particleSystem := some { ps with
        emissionRate := old.emissionRate
      , startColor := (H.fromCssColorString old.startColor).withAlpha 0
      , maximumSpeed := old.maximumSpeed
      , endScale := old.endScale
      , lifetime := old.lifetime
      , modelMatrix := ⟨m.center.1, m.center.2, old.height⟩ } }

/-- `switchShow(visible)`: set visibility, or throw when uninitialized. -/
def ParticleHeatMap.switchShow (b : Bool) (m : ParticleHeatMap) :
    Except String ParticleHeatMap :=
  match m.particleSystem with
  | some ps => Except.ok { m with particleSystem := some { ps with «show» := b } }
  | none => Except.error "have not initializated"

/-- `clear()`: `scene.primitives.remove(this.particleSystem)` (a Cesium
no-op returning `false` when the argument is `null` or absent), then null
the reference. -/
def ParticleHeatMap.clear (m : ParticleHeatMap) : ParticleHeatMap :=
  { m with
    primitives :=
      match m.particleSystem with
      | some ps => m.primitives.erase ps.id
      | none => m.primitives
  , particleSystem := none }

/-! ### Helper lemmas -/

theorem toInt32_of_small (q : ℚ) (h0 : 0 ≤ truncQ q) (h1 : truncQ q < 2 ^ 31) :
    toInt32 q = truncQ q := by
  unfold toInt32
  omega

theorem truncQ_of_nonneg (q : ℚ) (h : 0 ≤ q) : truncQ q = ⌊q⌋ := by
  unfold truncQ
  rw [if_neg (not_lt.mpr h)]

theorem floor_half_nat (n : ℕ) : ⌊(n : ℚ) / 2⌋ = ((n / 2 : ℕ) : ℤ) := by
  rw [Int.floor_eq_iff]
  constructor
  · rw [le_div_iff₀ (by norm_num : (0:ℚ) < 2)]
    exact_mod_cast Nat.div_mul_le_self n 2
  · rw [div_lt_iff₀ (by norm_num : (0:ℚ) < 2)]
    have hnat : n < (n / 2 + 1) * 2 := by omega
    exact_mod_cast hnat

/-- The shared index computation of `posXOf`/`posYOf` evaluated at the
half-span offset of a positive span. -/
theorem toInt32_abs_half_span (w : ℚ) (hw : 0 < w) (n : ℕ) (hn : n < 2 ^ 32) :
    toInt32 (|w / 2 / w| * n) = ((n / 2 : ℕ) : ℤ) := by
  have hw0 : w ≠ 0 := ne_of_gt hw
  have hhalf : w / 2 / w = 1 / 2 := by
    rw [div_div, mul_comm, div_mul_eq_div_div, div_self hw0]
  rw [hhalf, abs_of_nonneg (by norm_num : (0:ℚ) ≤ 1 / 2)]
  have hmul : (1 / 2 : ℚ) * n = (n : ℚ) / 2 := by ring
  rw [hmul]
  have htr : truncQ ((n : ℚ) / 2) = ((n / 2 : ℕ) : ℤ) := by
    rw [truncQ_of_nonneg _ (by positivity), floor_half_nat]
  have hlt : n / 2 < 2 ^ 31 := by omega
  rw [toInt32_of_small]
  · exact htr
  · rw [htr]; exact Int.ofNat_nonneg _
  · rw [htr]; exact_mod_cast hlt

/-! ### Concrete fixtures used by witnesses and counterexamples -/

/-- A concrete host: projection lands at cartographic `(1/2, 1/2)`,
normalization is the identity, CSS parsing encodes the string length. -/
def hostW : Host :=
  { cartesianToCartographic := fun _ => ⟨1 / 2, 1 / 2⟩
  , normalize := fun c => c
  , fromCssColorString := fun s => ⟨(s.length : ℚ), 0, 0, 1⟩
  , distance := fun _ _ => 0 }

/-- An all-absent partial options record. -/
def noRO : ParticleHeatMapRenderOptions :=
  ⟨none, none, none, none, none, none, none, none, none⟩

def rectEx : Rectangle := ⟨0, 0, 1, 1⟩

def pEx : Particle :=
  { position := ⟨1, 0, 0⟩
  , velocity := ⟨0, 0, 0⟩
  , startColor := ⟨0, 0, 0, 1⟩
  , endColor := ⟨0, 0, 0, 1⟩
  , image := some "/smoke.png" }

/-- An instance constructed but never initialized. -/
def mUninit : ParticleHeatMap :=
  ParticleHeatMap.construct ⟨rectEx, [[some 1]], noRO⟩

/-- A freshly initialized instance over a 1x1 grid holding the number 1. -/
def mInit : ParticleHeatMap := mUninit.init hostW false

/-- An initialized instance over a 1x1 grid whose only cell is `NaN`. -/
def mNaN : ParticleHeatMap :=
  (ParticleHeatMap.construct ⟨rectEx, [[none]], noRO⟩).init hostW false

/-- An initialized instance over a 1x1 grid whose only cell is 0. -/
def mZero : ParticleHeatMap :=
  (ParticleHeatMap.construct ⟨rectEx, [[some 0]], noRO⟩).init hostW false

/-! ### Claims -/

/-- C1 (counterexample): calling `init` a second time with no intervening
`clear` does NOT throw; the second call succeeds and leaves TWO particle
systems in the scene's primitive collection (ids 0 and 1), with the
instance's reference pointing at the second one. -/
theorem init_twice_adds_second_emitter :
    ((mInit.init hostW false).primitives = [0, 1]) ∧
    ((mInit.init hostW false).particleSystem.map ParticleSystem.id = some 1) ∧
    mInit.particleSystem.isSome = true :=
  ⟨rfl, rfl, rfl⟩

/-- C1 (amended): `init` performs no already-initialized check.  Even when
an emitter already exists, it unconditionally constructs a new particle
system, appends it to the scene's primitives (the prior emitter stays
there) and overwrites the stored reference; no error is signalled. -/
theorem init_has_no_already_initialized_guard
    (H : Host) (rc : Bool) (m : ParticleHeatMap) (ps0 : ParticleSystem)
    (hps : m.particleSystem = some ps0) :
    (m.init H rc).primitives = m.primitives ++ [m.nextId] ∧
    (m.init H rc).particleSystem = some (m.newSystem H) :=
  ⟨rfl, rfl⟩

/-- C1 (amended, witness): instantiated on a doubly-initialized state. -/
theorem init_has_no_already_initialized_guard_witness :
    (mInit.init hostW false).primitives = mInit.primitives ++ [mInit.nextId] ∧
    (mInit.init hostW false).particleSystem = some (mInit.newSystem hostW) :=
  init_has_no_already_initialized_guard hostW false mInit
    (mUninit.newSystem hostW) rfl

/-- A partial update that only sets `height := 5000`. -/
def heightOnly : ParticleHeatMapRenderOptions :=
  ⟨none, none, none, none, none, none, none, none, some 5000⟩

/-- C2 (code bug): the source destructures `this.renderOptions` BEFORE
merging in the new options, so `update({ height: 5000 })` on an instance
whose stored height is the default 1000 stores 5000 in the options but
recomputes the live emitter's placement transform with the STALE height
1000 — not with the new height, as the spec states.  (The other pushed
fields get their prior values, so they are observably unchanged.) -/
theorem update_height_uses_stale_height :
    mInit.renderOptions.height = 1000 ∧
    (mInit.update hostW heightOnly).renderOptions.height = 5000 ∧
    ((mInit.update hostW heightOnly).particleSystem.map ParticleSystem.modelMatrix =
      some ⟨mInit.center.1, mInit.center.2, 1000⟩) ∧
    ((mInit.update hostW heightOnly).particleSystem.map ParticleSystem.modelMatrix ≠
      some ⟨mInit.center.1, mInit.center.2, 5000⟩) ∧
    ((mInit.update hostW heightOnly).particleSystem.map ParticleSystem.emissionRate =
      some mInit.renderOptions.emissionRate) := by
  refine ⟨rfl, rfl, rfl, ?_, rfl⟩
  intro h
  have h3 := Option.some.inj ((rfl :
    (mInit.update hostW heightOnly).particleSystem.map ParticleSystem.modelMatrix =
      some ⟨mInit.center.1, mInit.center.2, 1000⟩).symm.trans h)
  have h4 : (1000 : ℚ) = 5000 := congrArg EnuFrameArgs.h h3
  norm_num at h4

/-- C8: `clear` is idempotent — a second `clear` throws nothing and changes
nothing — and after `clear` on a freshly constructed-then-initialized
instance every observable field (emitter reference, scene primitives,
stored options, rectangle, grid) equals its pre-`init` value. -/
theorem clear_idempotent_and_uninitializes :
    ∀ (m : ParticleHeatMap) (H : Host) (rc : Bool) (o : ParticleHeatMapOptions),
      m.clear.clear = m.clear ∧
      m.clear.particleSystem = none ∧
      ((ParticleHeatMap.construct o).init H rc).clear.particleSystem =
        (ParticleHeatMap.construct o).particleSystem ∧
      ((ParticleHeatMap.construct o).init H rc).clear.primitives =
        (ParticleHeatMap.construct o).primitives ∧
      ((ParticleHeatMap.construct o).init H rc).clear.renderOptions =
        (ParticleHeatMap.construct o).renderOptions ∧
      ((ParticleHeatMap.construct o).init H rc).clear.rectangle =
        (ParticleHeatMap.construct o).rectangle ∧
      ((ParticleHeatMap.construct o).init H rc).clear.data =
        (ParticleHeatMap.construct o).data := by
  intro m H rc o
  refine ⟨?_, ?_, rfl, rfl, rfl, rfl, rfl⟩
  · cases h : m.particleSystem <;> simp [ParticleHeatMap.clear, h]
  · simp [ParticleHeatMap.clear]

/-- C9: `switchShow b` throws the `"have not initializated"` error when no
emitter exists, and otherwise sets the live emitter's visibility to `b`. -/
theorem switchShow_requires_emitter :
    ∀ (b : Bool) (m : ParticleHeatMap),
      (m.particleSystem = none →
        m.switchShow b = Except.error "have not initializated") ∧
      ∀ ps, m.particleSystem = some ps →
        m.switchShow b =
          Except.ok { m with particleSystem := some { ps with «show» := b } } := by
  intro b m
  constructor
  · intro h
    unfold ParticleHeatMap.switchShow
    rw [h]
  · intro ps h
    unfold ParticleHeatMap.switchShow
    rw [h]

/-- C9 (witness): `switchShow true` before any `init` fails, and after
`init` it succeeds, setting visibility. -/
theorem switchShow_requires_emitter_witness :
    mUninit.switchShow true = Except.error "have not initializated" :=
  (switchShow_requires_emitter true mUninit).1 rfl

/-- C10: once `clear` has nulled the emitter reference, any further
invocation of the per-tick callback returns the particle unchanged — no
grid read, no velocity/color/image mutation, no error. -/
theorem callback_after_clear_is_noop
    (H : Host) (m : ParticleHeatMap) (p : Particle) :
    m.clear.particleCallback H p = some p := by
  simp [ParticleHeatMap.particleCallback, ParticleHeatMap.clear]

/-- C3: whenever the resolved grid cell is out of bounds (`undefined`) or
holds `NaN`, the callback zeroes the particle's start- and end-color alpha
and clears its image reference, and returns with the velocity (and every
other field) untouched and no error raised. -/
theorem callback_neutralizes_on_missing_or_nan
    (H : Host) (m : ParticleHeatMap) (p : Particle)
    (hps : ¬ m.particleSystem = none) (hdata : ¬ m.data = [])
    (hv :
      gridValue m.data
          (posYOf m.rectangle.north m.rectangle.height
            (H.cartesianToCartographic p.position).latitude m.data.length)
          (posXOf m.rectangle.west m.rectangle.width
            (H.cartesianToCartographic p.position).longitude
            (m.data.head?.getD []).length) = none ∨
      gridValue m.data
          (posYOf m.rectangle.north m.rectangle.height
            (H.cartesianToCartographic p.position).latitude m.data.length)
          (posXOf m.rectangle.west m.rectangle.width
            (H.cartesianToCartographic p.position).longitude
            (m.data.head?.getD []).length) = some none) :
    m.particleCallback H p =
      some { p with
        startColor := { p.startColor with alpha := 0 }
      , endColor := { p.endColor with alpha := 0 }
      , image := none } := by
  unfold ParticleHeatMap.particleCallback
  rw [if_neg hps, if_neg hdata]
  dsimp only
  rcases hv with hv | hv <;> rw [hv]

/-- C3 (witness): a 1x1 grid whose only cell is `NaN`; the projected
position resolves to cell `(0, 0)` and the particle is neutralized. -/
theorem callback_neutralizes_on_missing_or_nan_witness :
    mNaN.particleCallback hostW pEx =
      some { pEx with
        startColor := { pEx.startColor with alpha := 0 }
      , endColor := { pEx.endColor with alpha := 0 }
      , image := none } :=
  callback_neutralizes_on_missing_or_nan hostW mNaN pEx
    (by simp [mNaN, ParticleHeatMap.init])
    (by simp [mNaN, ParticleHeatMap.init, ParticleHeatMap.construct])
    (by
      right
      have h12 : |(1/2 : ℚ)| = 1/2 := by norm_num
      norm_num [mNaN, ParticleHeatMap.init, ParticleHeatMap.construct,
        ParticleHeatMap.newSystem, hostW, rectEx, noRO, pEx, gridValue, jsIndex,
        posXOf, posYOf, lonGapOf, toInt32, truncQ, Rectangle.width,
        Rectangle.height, piQ, h12, List.getElem?_cons_zero,
        List.getElem?_cons_succ, List.getElem?_nil])

/-- C4: on an in-bounds non-`NaN` sampled value `v`, the callback sets the
particle's end color to the parsed `upColor` when `0 < v` and to the
parsed `downColor` when `v ≤ 0`; zero takes the down branch. -/
theorem callback_end_color_by_sign
    (H : Host) (m : ParticleHeatMap) (p : Particle) (v : ℚ)
    (hps : ¬ m.particleSystem = none) (hdata : ¬ m.data = [])
    (hv :
      gridValue m.data
          (posYOf m.rectangle.north m.rectangle.height
            (H.cartesianToCartographic p.position).latitude m.data.length)
          (posXOf m.rectangle.west m.rectangle.width
            (H.cartesianToCartographic p.position).longitude
            (m.data.head?.getD []).length) = some (some v)) :
    (0 < v → (m.particleCallback H p).map Particle.endColor =
      some (H.fromCssColorString m.renderOptions.upColor)) ∧
    (v ≤ 0 → (m.particleCallback H p).map Particle.endColor =
      some (H.fromCssColorString m.renderOptions.downColor)) := by
  unfold ParticleHeatMap.particleCallback
  rw [if_neg hps, if_neg hdata]
  dsimp only
  rw [hv]
  constructor
  · intro hvpos
    simp only [if_pos hvpos]
    rfl
  · intro hvnp
    simp only [if_neg (not_lt.mpr hvnp)]
    rfl

/-- C4 (witness): sampled value exactly 0 takes the down branch. -/
theorem callback_end_color_by_sign_witness :
    (mZero.particleCallback hostW pEx).map Particle.endColor =
      some (hostW.fromCssColorString mZero.renderOptions.downColor) :=
  (callback_end_color_by_sign hostW mZero pEx 0
    (by simp [mZero, ParticleHeatMap.init])
    (by simp [mZero, ParticleHeatMap.init, ParticleHeatMap.construct])
    (by
      have h12 : |(1/2 : ℚ)| = 1/2 := by norm_num
      norm_num [mZero, ParticleHeatMap.init, ParticleHeatMap.construct,
        ParticleHeatMap.newSystem, hostW, rectEx, noRO, pEx, gridValue, jsIndex,
        posXOf, posYOf, lonGapOf, toInt32, truncQ, Rectangle.width,
        Rectangle.height, piQ, h12, List.getElem?_cons_zero,
        List.getElem?_cons_succ, List.getElem?_nil])).2 (le_refl 0)

/-- C7: on an in-bounds non-`NaN` sampled value `v`, the callback ADDS
`normalize(position) * (v * 10 * scale)` to the particle's existing
velocity (accumulating, not replacing). -/
theorem callback_accumulates_radial_velocity
    (H : Host) (m : ParticleHeatMap) (p : Particle) (v : ℚ)
    (hps : ¬ m.particleSystem = none) (hdata : ¬ m.data = [])
    (hv :
      gridValue m.data
          (posYOf m.rectangle.north m.rectangle.height
            (H.cartesianToCartographic p.position).latitude m.data.length)
          (posXOf m.rectangle.west m.rectangle.width
            (H.cartesianToCartographic p.position).longitude
            (m.data.head?.getD []).length) = some (some v)) :
    (m.particleCallback H p).map Particle.velocity =
      some (p.velocity.add
        ((H.normalize p.position).multiplyByScalar
          (v * 10 * m.renderOptions.scale))) := by
  unfold ParticleHeatMap.particleCallback
  rw [if_neg hps, if_neg hdata]
  dsimp only
  rw [hv]
  rfl

/-- C7 (witness): sampled value 1 on a freshly initialized instance. -/
theorem callback_accumulates_radial_velocity_witness :
    (mInit.particleCallback hostW pEx).map Particle.velocity =
      some (pEx.velocity.add
        ((hostW.normalize pEx.position).multiplyByScalar
          ((1:ℚ) * 10 * mInit.renderOptions.scale))) :=
  callback_accumulates_radial_velocity hostW mInit pEx 1
    (by simp [mInit, mUninit, ParticleHeatMap.init])
    (by simp [mInit, mUninit, ParticleHeatMap.init, ParticleHeatMap.construct])
    (by
      have h12 : |(1/2 : ℚ)| = 1/2 := by norm_num
      norm_num [mInit, mUninit, ParticleHeatMap.init, ParticleHeatMap.construct,
        ParticleHeatMap.newSystem, hostW, rectEx, noRO, pEx, gridValue, jsIndex,
        posXOf, posYOf, lonGapOf, toInt32, truncQ, Rectangle.width,
        Rectangle.height, piQ, h12, List.getElem?_cons_zero,
        List.getElem?_cons_succ, List.getElem?_nil])

/-- A rectangle with its western edge at +170° and its eastern edge at
-170° (i.e. 190° wrapped): it crosses the antimeridian. -/
def rect170 : Rectangle := ⟨piQ * 17 / 18, 0, -(piQ * 17 / 18), piQ / 4⟩

/-- C5: the `lonGap` offset gets a full turn (2π) added exactly when the
particle's longitude is negative and the rectangle's west edge positive;
and for the +170°-west rectangle reaching -170°, a particle at -170°
yields a `lonGap` inside `[0, width]` instead of a negative value. -/
theorem lonGap_antimeridian_correction :
    (∀ west longitude : ℚ, longitude < 0 → 0 < west →
      lonGapOf west longitude = longitude - west + piQ * 2) ∧
    (∀ west longitude : ℚ, ¬(longitude < 0 ∧ 0 < west) →
      lonGapOf west longitude = longitude - west) ∧
    0 ≤ lonGapOf rect170.west (-(piQ * 17 / 18)) ∧
    lonGapOf rect170.west (-(piQ * 17 / 18)) ≤ rect170.width := by
  refine ⟨?_, ?_, ?_, ?_⟩
  · intro w l h1 h2
    unfold lonGapOf
    dsimp only
    rw [if_pos ⟨h1, h2⟩]
  · intro w l h
    unfold lonGapOf
    dsimp only
    rw [if_neg h]
  · norm_num [lonGapOf, rect170, piQ]
  · norm_num [lonGapOf, rect170, Rectangle.width, piQ]

/-- C5 (witness): the correction fires at `west = 1, longitude = -1` and
does not fire at `west = -1, longitude = 1`. -/
theorem lonGap_antimeridian_correction_witness :
    lonGapOf 1 (-1) = -1 - 1 + piQ * 2 ∧ lonGapOf (-1) 1 = 1 - (-1) :=
  ⟨lonGap_antimeridian_correction.1 1 (-1) (by norm_num) (by norm_num),
   lonGap_antimeridian_correction.2.1 (-1) 1 (by norm_num)⟩

/-- C6: for a non-crossing, non-degenerate rectangle (grid dimensions
within the JS array-length bound 2^32), a particle projected exactly onto
the instance's `center` resolves to grid column `cols / 2` and row
`rows / 2`, each truncated toward zero. -/
theorem center_particle_resolves_to_middle_cell
    (m : ParticleHeatMap) (rows cols : ℕ)
    (hwe : m.rectangle.west < m.rectangle.east)
    (he : m.rectangle.east ≤ piQ)
    (hsn : m.rectangle.south < m.rectangle.north)
    (hcols : cols < 2 ^ 32) (hrows : rows < 2 ^ 32) :
    posXOf m.rectangle.west m.rectangle.width m.center.1 cols =
      ((cols / 2 : ℕ) : ℤ) ∧
    posYOf m.rectangle.north m.rectangle.height m.center.2 rows =
      ((rows / 2 : ℕ) : ℤ) := by
  have hwidth : m.rectangle.width = m.rectangle.east - m.rectangle.west := by
    unfold Rectangle.width
    rw [if_neg (not_lt.mpr (le_of_lt hwe))]
  have hwpos : 0 < m.rectangle.width := by rw [hwidth]; linarith
  have hhpos : 0 < m.rectangle.height := by
    unfold Rectangle.height; linarith
  have hlon : m.center.1 = m.rectangle.west + m.rectangle.width / 2 := by
    unfold ParticleHeatMap.center
    dsimp only
    rw [if_neg]
    rw [not_lt, hwidth]
    linarith
  have hlat : m.center.2 = m.rectangle.south + m.rectangle.height / 2 := rfl
  constructor
  · rw [hlon]
    unfold posXOf
    have hgap : lonGapOf m.rectangle.west
        (m.rectangle.west + m.rectangle.width / 2) = m.rectangle.width / 2 := by
      unfold lonGapOf
      dsimp only
      rw [if_neg, add_sub_cancel_left]
      rintro ⟨hneg, hpos⟩
      linarith
    rw [hgap]
    exact toInt32_abs_half_span m.rectangle.width hwpos cols hcols
  · rw [hlat]
    unfold posYOf
    have hupper : m.rectangle.north -
        (m.rectangle.south + m.rectangle.height / 2) = m.rectangle.height / 2 := by
      unfold Rectangle.height
      ring
    rw [hupper]
    exact toInt32_abs_half_span m.rectangle.height hhpos rows hrows

/-- C6 (witness): the rectangle `[0,1]x[0,1]` with a 3x3 grid: the center
resolves to cell `(1, 1)` (truncation of 3/2, not rounding to 2). -/
theorem center_particle_resolves_to_middle_cell_witness :
    (posXOf mUninit.rectangle.west mUninit.rectangle.width mUninit.center.1 3 =
      ((3 / 2 : ℕ) : ℤ) ∧
    posYOf mUninit.rectangle.north mUninit.rectangle.height mUninit.center.2 3 =
      ((3 / 2 : ℕ) : ℤ)) ∧ ((3 / 2 : ℕ) : ℤ) = 1 :=
  ⟨center_particle_resolves_to_middle_cell mUninit 3 3
    (by norm_num [mUninit, ParticleHeatMap.construct, rectEx])
    (by norm_num [mUninit, ParticleHeatMap.construct, rectEx, piQ])
    (by norm_num [mUninit, ParticleHeatMap.construct, rectEx])
    (by norm_num) (by norm_num), by norm_num⟩

end PHM
